import Mathlib

/-!
Verification of the pdf_chatbot frontend against its specification.

The repository sources are a React frontend: `App.jsx` (upload handling,
duplicate resolution, asking), `services/api.js` (the HTTP service module),
`components/PDFUpload.jsx` (file selection and the QuestionAnswer form) and
`components/DuplicateModal.jsx`. Pure fragments are embedded as Lean
functions; the stateful React handlers are embedded as explicit
state-transition functions on record types mirroring the component state.
The backend ingestion pipeline described by the spec is not among the
sources; where a claim needs it, a definition modelled from the spec is
used and marked as such.
-/

set_option maxHeartbeats 1000000

/-- A browser `File` object, restricted to the fields the code reads:
`name` and the MIME `type`. -/
structure FileObj where
  name : String
  type : String
deriving Repr, DecidableEq

/-- One per-file result of the upload endpoint as consumed by
`App.handleUpload`: a `status` string plus the fields the handler reads
(`filename`, `chunks`, `message`; the duplicate payload also carries
`existing_filename`). -/
structure UploadResult where
  status : String
  filename : String
  chunks : Nat
  message : String
  existing_filename : Option String
deriving Repr, DecidableEq

/-- A toast notification as produced by `addToast(message, type)`. -/
structure Toast where
  message : String
  ttype : String
deriving Repr, DecidableEq

namespace App

/-- The slice of `App`'s React state touched by `handleUpload` and
`handleDuplicateAction`: the toast list, the two counters of the upload
loop, the single pending-duplicate slot (`duplicateInfo`, `pendingFile`)
and the `isUploading` flag. -/
structure AppState where
  toasts : List Toast
  successCount : Nat
  duplicateCount : Nat
  duplicateInfo : Option UploadResult
  pendingFile : Option FileObj
  isUploading : Bool
deriving Repr, DecidableEq

/-- The body of the `for (const result of results)` loop in
`App.handleUpload` (App.jsx lines 102-114): `success` adds a success
toast and increments `successCount`; `duplicate` increments
`duplicateCount` and stores the result in `duplicateInfo` and the matching
file (by `files.find(f => f.name === result.filename)`) in `pendingFile`;
`error` adds an error toast; any other status falls through the
if/else-if chain and does nothing. -/
def processResult (files : List FileObj) (s : AppState) (result : UploadResult) : AppState :=
  if result.status = "success" then
    { s with
      successCount := s.successCount + 1,
      toasts := s.toasts ++
        [⟨"Uploaded: " ++ result.filename ++ " (" ++ toString result.chunks ++ " chunks)",
          "success"⟩] }
  else if result.status = "duplicate" then
    { s with
      duplicateCount := s.duplicateCount + 1,
      duplicateInfo := some result,
      pendingFile := files.find? (fun f => f.name = result.filename) }
  else if result.status = "error" then
    { s with
      toasts := s.toasts ++
        [⟨"Error: " ++ result.filename ++ " - " ++ result.message, "error"⟩] }
  else s

/-- The whole result loop of `App.handleUpload`: fold the loop body over
the per-file results returned by `api.uploadPDFs`. -/
def handleUploadLoop (files : List FileObj) (results : List UploadResult)
    (s : AppState) : AppState :=
  results.foldl (processResult files) s

/-- The outcome of the `api.handleDuplicate` call inside
`App.handleDuplicateAction`: the parsed result has status `success`,
status `cancelled`, some other status, or the call throws. -/
inductive ResolveOutcome where
  | reqSuccess (message : String)
  | reqCancelled
  | reqOther (status message : String)
  | reqThrows (errMessage : String)
deriving Repr, DecidableEq

/-- `App.handleDuplicateAction` (App.jsx lines 132-155) as a state
transition: an early return when `pendingFile` is falsy; otherwise
`isUploading` is set, a toast is added according to the outcome of the
resolution request (success / cancelled / other status / thrown error),
and the `finally` block clears `duplicateInfo`, `pendingFile` and
`isUploading`. The `action` string itself only flows into the request
(see `Api.handleDuplicate`), not into the state transition. -/
def handleDuplicateAction (s : AppState) (outcome : ResolveOutcome) : AppState :=
  match s.pendingFile with
  | none => s
  | some _ =>
    let s1 : AppState := { s with isUploading := true }
    let s2 : AppState :=
      match outcome with
      | .reqSuccess msg =>
          { s1 with toasts := s1.toasts ++ [⟨msg, "success"⟩] }
      | .reqCancelled =>
          { s1 with toasts := s1.toasts ++ [⟨"Upload cancelled", "info"⟩] }
      | .reqOther _ msg =>
          { s1 with toasts := s1.toasts ++ [⟨msg, "error"⟩] }
      | .reqThrows m =>
          { s1 with toasts := s1.toasts ++ [⟨"Error: " ++ m, "error"⟩] }
    { s2 with duplicateInfo := none, pendingFile := none, isUploading := false }

end App

/-- A button of `DuplicateModal` (DuplicateModal.jsx): its visible label
and the action string its `onClick` passes to `onAction`. -/
structure ModalButton where
  label : String
  action : String
deriving Repr, DecidableEq

/-- The three buttons in the `modal-actions` section of `DuplicateModal`:
`onAction('use_existing')`, `onAction('replace')`, `onAction('cancel')`. -/
def duplicateModalButtons : List ModalButton :=
  [⟨"Use Existing", "use_existing"⟩, ⟨"Replace", "replace"⟩, ⟨"Cancel", "cancel"⟩]

/-- A JSON value, as far as the service module's bodies need. -/
inductive Json where
  | str (s : String)
  | num (n : Nat)
  | obj (fields : List (String × Json))
  | arr (elems : List Json)
deriving Repr

/-- Look a key up in a JSON object, mirroring JS property access. -/
def Json.lookup (j : Json) (key : String) : Option Json :=
  match j with
  | .obj fields => (fields.find? (fun p => p.1 = key)).map (·.2)
  | _ => none

/-- One `key=value` pair appended to a `FormData` body; file parts carry
the file's name. -/
structure FormField where
  key : String
  value : String
deriving Repr, DecidableEq

/-- The body a `fetch` call sends: none (GET/DELETE), a `FormData`, or a
JSON document. -/
inductive RequestBody where
  | empty
  | form (fields : List FormField)
  | json (j : Json)
deriving Repr

/-- An HTTP request as assembled by the service module. -/
structure Request where
  url : String
  method : String
  body : RequestBody
deriving Repr

/-- The part of a `fetch` response the service module reads: `ok`,
`statusText`, and the parsed JSON body. -/
structure Response where
  ok : Bool
  statusText : String
  jsonBody : Json
deriving Repr

namespace Api

/-- The base URL of api.js. -/
def API_BASE_URL : String := "http://localhost:8000"

/-- The request `uploadPDFs` (api.js lines 15-31) sends: POST to
`/upload-pdfs` with one `files` form part per file. -/
def uploadPDFsRequest (files : List FileObj) : Request :=
  ⟨API_BASE_URL ++ "/upload-pdfs", "POST",
   .form (files.map (fun f => ⟨"files", f.name⟩))⟩

/-- The request `handleDuplicate` (api.js lines 39-54) sends: POST to
`/handle-duplicate` with the file and the `action` string as form parts. -/
def handleDuplicateRequest (file : FileObj) (action : String) : Request :=
  ⟨API_BASE_URL ++ "/handle-duplicate", "POST",
   .form [⟨"file", file.name⟩, ⟨"action", action⟩]⟩

/-- The request `askQuestion` (api.js lines 62-76) sends: POST to `/ask`
with body `JSON.stringify({ question, top_k: topK })`. -/
def askQuestionRequest (question : String) (topK : Nat) : Request :=
  ⟨API_BASE_URL ++ "/ask", "POST",
   .json (.obj [("question", .str question), ("top_k", .num topK)])⟩

/-- `askQuestion` called with no second argument: the JS default
parameter `topK = 5` applies. -/
def askQuestionRequestDefault (question : String) : Request :=
  askQuestionRequest question 5

/-- The request `getDocuments` sends: GET `/documents`. -/
def getDocumentsRequest : Request :=
  ⟨API_BASE_URL ++ "/documents", "GET", .empty⟩

/-- The request `deleteDocument` sends: DELETE `/documents/{docId}`
(brace shown here as text). -/
def deleteDocumentRequest (docId : String) : Request :=
  ⟨API_BASE_URL ++ "/documents/" ++ docId, "DELETE", .empty⟩

/-- The request `getStats` sends: GET `/stats`. -/
def getStatsRequest : Request :=
  ⟨API_BASE_URL ++ "/stats", "GET", .empty⟩

/-- The request `healthCheck` sends: GET `/health`. -/
def healthCheckRequest : Request :=
  ⟨API_BASE_URL ++ "/health", "GET", .empty⟩

/-- The common tail of every api.js function: `if (!response.ok) throw
new Error(prefix + response.statusText); return response.json()`. The
thrown error is the `Except.error` case. -/
def handleResponse (errPrefix : String) (resp : Response) : Except String Json :=
  if resp.ok then .ok resp.jsonBody
  else .error (errPrefix ++ resp.statusText)

/-- One invocation of an api.js function, given the response the network
returns to its request: the list of requests it performed (each function
calls `fetch` exactly once, so the list is a singleton) paired with its
result. `uploadPDFs`: -/
def uploadPDFs (files : List FileObj) (resp : Response) :
    List Request × Except String Json :=
  ([uploadPDFsRequest files], handleResponse "Upload failed: " resp)

/-- One invocation of `handleDuplicate`(file, action). -/
def handleDuplicate (file : FileObj) (action : String) (resp : Response) :
    List Request × Except String Json :=
  ([handleDuplicateRequest file action],
   handleResponse "Failed to handle duplicate: " resp)

/-- One invocation of `askQuestion`(question, topK). -/
def askQuestion (question : String) (topK : Nat) (resp : Response) :
    List Request × Except String Json :=
  ([askQuestionRequest question topK], handleResponse "Failed to get answer: " resp)

/-- One invocation of `getDocuments`(). -/
def getDocuments (resp : Response) : List Request × Except String Json :=
  ([getDocumentsRequest], handleResponse "Failed to get documents: " resp)

/-- One invocation of `deleteDocument`(docId). -/
def deleteDocument (docId : String) (resp : Response) :
    List Request × Except String Json :=
  ([deleteDocumentRequest docId], handleResponse "Failed to delete document: " resp)

/-- One invocation of `getStats`(). -/
def getStats (resp : Response) : List Request × Except String Json :=
  ([getStatsRequest], handleResponse "Failed to get stats: " resp)

/-- One invocation of `healthCheck`(). -/
def healthCheck (resp : Response) : List Request × Except String Json :=
  ([healthCheckRequest], handleResponse "Backend is not healthy: " resp)

end Api

namespace QuestionAnswer

/-- The JS `String.prototype.trim`: strip leading and trailing
whitespace characters. -/
def jsTrim (s : String) : String :=
  String.mk (((s.data.dropWhile Char.isWhitespace).reverse.dropWhile
    Char.isWhitespace).reverse)

/-- `QuestionAnswer.handleSubmit` (QuestionAnswer.jsx source):
`if (question.trim() && !isLoading) onAsk(question.trim())`. The result
is the argument passed to `onAsk`, or `none` when no call is made. An
empty string is falsy in JS, so the guard is: trimmed question non-empty
and not loading. -/
def handleSubmit (question : String) (isLoading : Bool) : Option String :=
  if jsTrim question ≠ "" ∧ isLoading = false then some (jsTrim question) else none

end QuestionAnswer

namespace PDFUpload

/-- The slice of `PDFUpload`'s state the selection handlers touch: the
`selectedFiles` list and the hidden file input's `value` string. -/
structure UploadState where
  selectedFiles : List FileObj
  inputValue : String
deriving Repr, DecidableEq

/-- `PDFUpload.handleDrop` (PDFUpload.jsx lines 26-38): keep only the
dropped files whose MIME type is `application/pdf`, and if any survive,
append them after the current selection. -/
def handleDrop (s : UploadState) (dropped : List FileObj) : UploadState :=
  let files := dropped.filter (fun f => f.type = "application/pdf")
  if files.length > 0 then { s with selectedFiles := s.selectedFiles ++ files } else s

/-- `PDFUpload.handleFileChange` (PDFUpload.jsx lines 41-44): append all
files chosen in the dialog after the current selection, with no type
filter (the input's `accept=".pdf"` is a browser hint, not enforced
here). -/
def handleFileChange (s : UploadState) (chosen : List FileObj) : UploadState :=
  { s with selectedFiles := s.selectedFiles ++ chosen }

/-- `PDFUpload.clearFiles` (PDFUpload.jsx lines 52-57): empty the
selection and reset the file input's value to the empty string. -/
def clearFiles (s : UploadState) : UploadState :=
  { s with selectedFiles := [], inputValue := "" }

/-- `PDFUpload.handleUpload` (PDFUpload.jsx lines 60-65): return early
when the selection is empty; otherwise call `onUpload(selectedFiles)`
(the first component is the argument of that call, `none` when no call
happens) and, once it resolves, `clearFiles()`. -/
def handleUpload (s : UploadState) : Option (List FileObj) × UploadState :=
  if s.selectedFiles.length = 0 then (none, s)
  else (some s.selectedFiles, clearFiles s)

end PDFUpload

namespace Backend

/-- Modelled from the spec: the backend `Document` record (spec §3).
The backend implementation is not among the repository sources (only the
frontend is), so this and the following definitions follow the spec's
words for the DocumentRegistry and IngestionPipeline. -/
structure Document where
  doc_id : Nat
  filename : String
  content_hash : Nat
  upload_timestamp : Nat
  num_pages : Nat
  num_chunks : Nat
deriving Repr, DecidableEq

/-- Modelled from the spec: a registry entry with the document's
lifecycle state — `active` is false once the document is deleted
(tombstoned, spec §4.2/§9). -/
structure RegEntry where
  doc : Document
  active : Bool
deriving Repr, DecidableEq

/-- Modelled from the spec: a chunk as stored by ChunkStore (spec §3):
text, owning document, page number. -/
structure Chunk where
  text : String
  source_doc_id : Nat
  page_number : Nat
deriving Repr, DecidableEq

/-- Modelled from the spec: the three jointly-consistent stores plus the
next fresh `doc_id` (doc ids are never reused, spec §3). The VectorIndex
holds one embedding vector per chunk id, co-indexed with ChunkStore. -/
structure Stores where
  registry : List RegEntry
  chunkStore : List Chunk
  vectorIndex : List (List Int)
  nextDocId : Nat
deriving Repr, DecidableEq

/-- Modelled from the spec: `DocumentRegistry.find_by_hash(hash)` (spec
§4.3) — the active document with the given content hash, if any. -/
def find_by_hash (registry : List RegEntry) (h : Nat) : Option Document :=
  ((registry.filter (·.active)).find? (fun e => e.doc.content_hash = h)).map (·.doc)

/-- Modelled from the spec: fixed-size word windows with overlap (spec
§4.4 step 2, defaults 200-word windows and 50-word overlap, so the
window start advances by 150 words). -/
def wordWindows (ws : List String) : List (List String) :=
  if _h : ws.length ≤ 200 then [ws]
  else ws.take 200 :: wordWindows (ws.drop 150)
termination_by ws.length
decreasing_by
  simp only [List.length_drop]
  omega

/-- Modelled from the spec: chunk one page's text into overlapping word
windows, dropping whitespace-only chunks (spec §4.4 step 2). -/
def chunkPage (doc_id page : Nat) (text : String) : List Chunk :=
  ((wordWindows (text.splitOn " ")).map
      (fun w => Chunk.mk (" ".intercalate w) doc_id page)).filter
    (fun c => c.text.trim ≠ "")

/-- Modelled from the spec: the result of one upload as seen by the API
layer (spec §6): `success` with filename and counts, `duplicate` with
the conflict payload, or `error`. -/
inductive IngestResult where
  | success (filename : String) (chunks pages : Nat)
  | duplicate (filename existing_filename : String)
  | error (filename message : String)
deriving Repr, DecidableEq

/-- Modelled from the spec: the IngestionPipeline (spec §4.4) for one
document, parametric in the content-hash digest and the embedding
collaborator. Step 1: hash the bytes and short-circuit to a `duplicate`
result, mutating nothing, when `find_by_hash` returns an active
document. Otherwise chunk each page (step 2), embed all chunks in one
batch (step 3), append chunks and vectors and register the document
(step 4). Persistence (step 5) is outside this model. -/
def ingest (hash : List Nat → Nat) (embed : List String → List (List Int))
    (s : Stores) (filename : String) (fileBytes : List Nat)
    (pages : List (Nat × String)) (ts : Nat) : IngestResult × Stores :=
  let h := hash fileBytes
  match find_by_hash s.registry h with
  | some existing => (.duplicate filename existing.filename, s)
  | none =>
    let chunks := pages.flatMap (fun p => chunkPage s.nextDocId p.1 p.2)
    let vectors := embed (chunks.map (·.text))
    let doc : Document :=
      ⟨s.nextDocId, filename, h, ts, pages.length, chunks.length⟩
    (.success filename chunks.length pages.length,
     { registry := s.registry ++ [⟨doc, true⟩],
       chunkStore := s.chunkStore ++ chunks,
       vectorIndex := s.vectorIndex ++ vectors,
       nextDocId := s.nextDocId + 1 })

/-- True exactly on `duplicate` results. -/
def IngestResult.isDuplicate : IngestResult → Bool
  | .duplicate _ _ => true
  | _ => false

/-- True exactly on `success` results. -/
def IngestResult.isSuccess : IngestResult → Bool
  | .success _ _ _ => true
  | _ => false

end Backend

section ClaimC1

/-- Concrete inputs to exercise the upload classification. -/
def c1Files : List FileObj := [⟨"a.pdf", "application/pdf"⟩]

/-- A concrete duplicate result for the same inputs. -/
def c1Dup : UploadResult := ⟨"duplicate", "a.pdf", 0, "", some "a.pdf"⟩

/-- A concrete initial component state. -/
def c1State : App.AppState := ⟨[], 0, 0, none, none, false⟩

/-- C1: `App.handleUpload` classifies each per-file result by its status
into exactly three cases. A `success` result appends one success toast
and increments the success count, leaving the pending-duplicate slot
alone; a `duplicate` result adds no toast and stores the payload in
`duplicateInfo` and the name-matching pending file in `pendingFile`; an
`error` result appends one error toast and touches nothing else; any
other status leaves the state completely unchanged. -/
theorem handleUpload_classifies (files : List FileObj) (s : App.AppState)
    (result : UploadResult) :
    (result.status = "success" →
      (∃ t : Toast, (App.processResult files s result).toasts = s.toasts ++ [t] ∧
        t.ttype = "success") ∧
      (App.processResult files s result).successCount = s.successCount + 1 ∧
      (App.processResult files s result).duplicateInfo = s.duplicateInfo ∧
      (App.processResult files s result).pendingFile = s.pendingFile) ∧
    (result.status = "duplicate" →
      (App.processResult files s result).toasts = s.toasts ∧
      (App.processResult files s result).duplicateInfo = some result ∧
      (App.processResult files s result).pendingFile =
        files.find? (fun f => f.name = result.filename) ∧
      (App.processResult files s result).successCount = s.successCount) ∧
    (result.status = "error" →
      (∃ t : Toast, (App.processResult files s result).toasts = s.toasts ++ [t] ∧
        t.ttype = "error") ∧
      (App.processResult files s result).successCount = s.successCount ∧
      (App.processResult files s result).duplicateInfo = s.duplicateInfo ∧
      (App.processResult files s result).pendingFile = s.pendingFile) ∧
    (result.status ≠ "success" → result.status ≠ "duplicate" →
      result.status ≠ "error" → App.processResult files s result = s) := by
  refine ⟨fun h => ?_, fun h => ?_, fun h => ?_, fun h1 h2 h3 => ?_⟩
  · simp [App.processResult, h]
  · simp [App.processResult, h]
  · simp [App.processResult, h]
  · simp [App.processResult, h1, h2, h3]

/-- Witness for C1 at concrete inputs: a duplicate result stores its
payload and the matching file without any toast. -/
theorem handleUpload_classifies_witness :
    (App.processResult c1Files c1State c1Dup).toasts = [] ∧
    (App.processResult c1Files c1State c1Dup).duplicateInfo = some c1Dup ∧
    (App.processResult c1Files c1State c1Dup).pendingFile =
      some ⟨"a.pdf", "application/pdf"⟩ := by
  have h := (handleUpload_classifies c1Files c1State c1Dup).2.1 rfl
  refine ⟨h.1, h.2.1, ?_⟩
  rw [h.2.2.1]
  rfl

end ClaimC1

section ClaimC2

/-- C2: the duplicate-resolution actions are exactly `use_existing`,
`replace`, `cancel` — each modal button passes one of these strings to
`onAction` and no other action string occurs — and `api.handleDuplicate`
places the chosen action string verbatim in the `action` form field of
the request it sends. -/
theorem duplicate_resolution_actions (file : FileObj) (action : String) :
    duplicateModalButtons.map ModalButton.action =
      ["use_existing", "replace", "cancel"] ∧
    ∃ fields : List FormField,
      (Api.handleDuplicateRequest file action).body = .form fields ∧
      (fields.find? (fun p => p.key = "action")).map FormField.value = some action := by
  refine ⟨rfl, [⟨"file", file.name⟩, ⟨"action", action⟩], rfl, ?_⟩
  simp [List.find?]

end ClaimC2

section ClaimC3

/-- A result whose status is not `duplicate` never touches the
pending-duplicate slot. -/
theorem processResult_preserves_slot (files : List FileObj) (s : App.AppState)
    (r : UploadResult) (h : r.status ≠ "duplicate") :
    (App.processResult files s r).duplicateInfo = s.duplicateInfo ∧
    (App.processResult files s r).pendingFile = s.pendingFile := by
  unfold App.processResult
  split_ifs <;> simp_all

/-- Folding non-duplicate results leaves the slot unchanged. -/
theorem foldl_nondup_preserves_slot (files : List FileObj) :
    ∀ (rs : List UploadResult) (s : App.AppState),
      (∀ x ∈ rs, x.status ≠ "duplicate") →
      (rs.foldl (App.processResult files) s).duplicateInfo = s.duplicateInfo ∧
      (rs.foldl (App.processResult files) s).pendingFile = s.pendingFile := by
  intro rs
  induction rs with
  | nil => intro s _; exact ⟨rfl, rfl⟩
  | cons a t ih =>
    intro s h
    have ha : a.status ≠ "duplicate" := h a (List.mem_cons_self a t)
    have ht : ∀ x ∈ t, x.status ≠ "duplicate" := fun x hx => h x (List.mem_cons_of_mem a hx)
    have hp := processResult_preserves_slot files s a ha
    have := ih (App.processResult files s a) ht
    simp only [List.foldl_cons]
    exact ⟨this.1.trans hp.1, this.2.trans hp.2⟩

/-- C3: the pending-duplicate state is a single slot. When one batch of
results contains a duplicate after which no further duplicate occurs,
the loop leaves exactly that last duplicate's payload in `duplicateInfo`
and its name-matching file in `pendingFile`: every earlier duplicate was
overwritten. -/
theorem pending_duplicate_single_slot (files : List FileObj) (s : App.AppState)
    (pre post : List UploadResult) (r : UploadResult)
    (hr : r.status = "duplicate")
    (hpost : ∀ x ∈ post, x.status ≠ "duplicate") :
    (App.handleUploadLoop files (pre ++ r :: post) s).duplicateInfo = some r ∧
    (App.handleUploadLoop files (pre ++ r :: post) s).pendingFile =
      files.find? (fun f => f.name = r.filename) := by
  unfold App.handleUploadLoop
  rw [List.foldl_append, List.foldl_cons]
  set s1 := pre.foldl (App.processResult files) s with hs1
  have hstep : (App.processResult files s1 r).duplicateInfo = some r ∧
      (App.processResult files s1 r).pendingFile =
        files.find? (fun f => f.name = r.filename) := by
    have h := (handleUpload_classifies files s1 r).2.1 hr
    exact ⟨h.2.1, h.2.2.1⟩
  have hfold := foldl_nondup_preserves_slot files post (App.processResult files s1 r) hpost
  exact ⟨hfold.1.trans hstep.1, hfold.2.trans hstep.2⟩

/-- Witness for C3: a batch with two duplicates keeps only the second
one's payload. -/
theorem pending_duplicate_single_slot_witness :
    (App.handleUploadLoop [⟨"a.pdf", "application/pdf"⟩, ⟨"b.pdf", "application/pdf"⟩]
        [⟨"duplicate", "a.pdf", 0, "", some "a.pdf"⟩,
         ⟨"duplicate", "b.pdf", 0, "", some "b.pdf"⟩]
        ⟨[], 0, 0, none, none, false⟩).duplicateInfo =
      some ⟨"duplicate", "b.pdf", 0, "", some "b.pdf"⟩ := by
  have h := pending_duplicate_single_slot
    [⟨"a.pdf", "application/pdf"⟩, ⟨"b.pdf", "application/pdf"⟩]
    ⟨[], 0, 0, none, none, false⟩
    [⟨"duplicate", "a.pdf", 0, "", some "a.pdf"⟩] []
    ⟨"duplicate", "b.pdf", 0, "", some "b.pdf"⟩
    rfl (by simp)
  exact h.1

end ClaimC3

section ClaimC4

/-- C4: whatever the resolution request's outcome — parsed status
`success`, `cancelled`, any other status, or a thrown error — once
`App.handleDuplicateAction` runs its `finally` block the
pending-duplicate state is destroyed: both slot fields are null and
`isUploading` is false. -/
theorem pending_duplicate_destroyed (s : App.AppState) (outcome : App.ResolveOutcome)
    (h : s.pendingFile ≠ none) :
    (App.handleDuplicateAction s outcome).duplicateInfo = none ∧
    (App.handleDuplicateAction s outcome).pendingFile = none ∧
    (App.handleDuplicateAction s outcome).isUploading = false := by
  cases hp : s.pendingFile with
  | none => exact absurd hp h
  | some f => cases outcome <;> simp [App.handleDuplicateAction, hp]

/-- Witness for C4 at a concrete state and a thrown-error outcome. -/
theorem pending_duplicate_destroyed_witness :
    (App.handleDuplicateAction
        ⟨[], 0, 0, some ⟨"duplicate", "a.pdf", 0, "", none⟩,
         some ⟨"a.pdf", "application/pdf"⟩, true⟩
        (.reqThrows "network down")).duplicateInfo = none ∧
    (App.handleDuplicateAction
        ⟨[], 0, 0, some ⟨"duplicate", "a.pdf", 0, "", none⟩,
         some ⟨"a.pdf", "application/pdf"⟩, true⟩
        (.reqThrows "network down")).pendingFile = none ∧
    (App.handleDuplicateAction
        ⟨[], 0, 0, some ⟨"duplicate", "a.pdf", 0, "", none⟩,
         some ⟨"a.pdf", "application/pdf"⟩, true⟩
        (.reqThrows "network down")).isUploading = false :=
  pending_duplicate_destroyed _ _ (by simp)

end ClaimC4

section ClaimC5

/-- C5: the `/ask` request body. Calling `askQuestion` without a second
argument sends `top_k = 5` (the JS default parameter); calling it with
an explicit `topK` sends exactly that value; in both cases the body's
`question` field is the given string verbatim. -/
theorem askQuestion_topk_body (question : String) (topK : Nat) :
    (∃ j : Json, (Api.askQuestionRequestDefault question).body = .json j ∧
      j.lookup "top_k" = some (.num 5) ∧
      j.lookup "question" = some (.str question)) ∧
    (∃ j : Json, (Api.askQuestionRequest question topK).body = .json j ∧
      j.lookup "top_k" = some (.num topK) ∧
      j.lookup "question" = some (.str question)) := by
  refine ⟨⟨.obj [("question", .str question), ("top_k", .num 5)], rfl, ?_, ?_⟩,
          ⟨.obj [("question", .str question), ("top_k", .num topK)], rfl, ?_, ?_⟩⟩ <;>
    simp [Json.lookup, List.find?]

end ClaimC5

section ClaimC6

/-- The shared response tail of every api.js function: the result is ok
exactly when the response is ok, and an ok response's parsed JSON body
is returned as is. -/
theorem handleResponse_spec (p : String) (resp : Response) :
    (Api.handleResponse p resp).isOk = resp.ok ∧
    (resp.ok = true → Api.handleResponse p resp = .ok resp.jsonBody) := by
  unfold Api.handleResponse
  cases h : resp.ok <;> simp [h, Except.isOk, Except.toBool]

/-- C6: each of the seven api.js functions performs exactly one request
per invocation (the performed-request list is a singleton — there is no
retry), its result is an error exactly when the response is not ok, and
an ok response yields the parsed JSON body unchanged. -/
theorem api_single_request_no_retry (files : List FileObj) (file : FileObj)
    (action question docId : String) (topK : Nat) (resp : Response) :
    ((Api.uploadPDFs files resp).1.length = 1 ∧
      (Api.uploadPDFs files resp).2.isOk = resp.ok ∧
      (resp.ok = true → (Api.uploadPDFs files resp).2 = .ok resp.jsonBody)) ∧
    ((Api.handleDuplicate file action resp).1.length = 1 ∧
      (Api.handleDuplicate file action resp).2.isOk = resp.ok ∧
      (resp.ok = true → (Api.handleDuplicate file action resp).2 = .ok resp.jsonBody)) ∧
    ((Api.askQuestion question topK resp).1.length = 1 ∧
      (Api.askQuestion question topK resp).2.isOk = resp.ok ∧
      (resp.ok = true → (Api.askQuestion question topK resp).2 = .ok resp.jsonBody)) ∧
    ((Api.getDocuments resp).1.length = 1 ∧
      (Api.getDocuments resp).2.isOk = resp.ok ∧
      (resp.ok = true → (Api.getDocuments resp).2 = .ok resp.jsonBody)) ∧
    ((Api.deleteDocument docId resp).1.length = 1 ∧
      (Api.deleteDocument docId resp).2.isOk = resp.ok ∧
      (resp.ok = true → (Api.deleteDocument docId resp).2 = .ok resp.jsonBody)) ∧
    ((Api.getStats resp).1.length = 1 ∧
      (Api.getStats resp).2.isOk = resp.ok ∧
      (resp.ok = true → (Api.getStats resp).2 = .ok resp.jsonBody)) ∧
    ((Api.healthCheck resp).1.length = 1 ∧
      (Api.healthCheck resp).2.isOk = resp.ok ∧
      (resp.ok = true → (Api.healthCheck resp).2 = .ok resp.jsonBody)) := by
  refine ⟨⟨rfl, ?_⟩, ⟨rfl, ?_⟩, ⟨rfl, ?_⟩, ⟨rfl, ?_⟩, ⟨rfl, ?_⟩, ⟨rfl, ?_⟩, ⟨rfl, ?_⟩⟩ <;>
    exact handleResponse_spec _ resp

/-- Witness for C6 at concrete inputs and an ok response. -/
theorem api_single_request_no_retry_witness :
    (Api.healthCheck ⟨true, "OK", .obj []⟩).1.length = 1 ∧
    (Api.healthCheck ⟨true, "OK", .obj []⟩).2 = .ok (.obj []) := by
  have h := api_single_request_no_retry [] ⟨"a.pdf", "application/pdf"⟩
    "cancel" "q" "1" 5 ⟨true, "OK", .obj []⟩
  exact ⟨h.2.2.2.2.2.2.1, h.2.2.2.2.2.2.2.2 rfl⟩

end ClaimC6

section ClaimC8

/-- C8: `QuestionAnswer.handleSubmit` calls `onAsk` only when the
trimmed question is non-empty and no ask is in flight, and then passes
exactly the trimmed question; an empty or whitespace-only question, or
an in-flight ask, performs no call. -/
theorem question_submit_trimmed (q : String) (loading : Bool) :
    (∀ a : String, QuestionAnswer.handleSubmit q loading = some a →
      a = QuestionAnswer.jsTrim q ∧ QuestionAnswer.jsTrim q ≠ "" ∧ loading = false) ∧
    (QuestionAnswer.jsTrim q = "" → QuestionAnswer.handleSubmit q loading = none) ∧
    (loading = true → QuestionAnswer.handleSubmit q loading = none) := by
  unfold QuestionAnswer.handleSubmit
  split_ifs with h
  · refine ⟨fun a ha => ?_, fun he => absurd he h.1, fun hl => by simp_all⟩
    exact ⟨(Option.some.injEq _ _ ▸ ha).symm, h.1, h.2⟩
  · exact ⟨fun a ha => by simp_all, fun _ => rfl, fun _ => rfl⟩

/-- Witness for C8: a whitespace-only question is never submitted, and a
padded question is submitted trimmed. -/
theorem question_submit_trimmed_witness :
    QuestionAnswer.handleSubmit "   " false = none ∧
    QuestionAnswer.handleSubmit " hi " false = some "hi" := by
  constructor
  · exact (question_submit_trimmed "   " false).2.1 (by decide)
  · decide

end ClaimC8

section ClaimC9

/-- C9: drag-and-drop adds exactly the dropped files whose MIME type is
`application/pdf`, appended in order after the existing selection; the
file-input dialog appends the chosen files with no type filter; hence a
file in the selection after a drop is either an old selection member or
a PDF — non-PDFs can only arrive via the dialog. -/
theorem drop_filters_dialog_does_not (s : PDFUpload.UploadState)
    (dropped chosen : List FileObj) :
    (PDFUpload.handleDrop s dropped).selectedFiles =
      s.selectedFiles ++ dropped.filter (fun f => f.type = "application/pdf") ∧
    (PDFUpload.handleFileChange s chosen).selectedFiles = s.selectedFiles ++ chosen ∧
    (∀ f ∈ (PDFUpload.handleDrop s dropped).selectedFiles,
      f ∈ s.selectedFiles ∨ f.type = "application/pdf") := by
  have hdrop : (PDFUpload.handleDrop s dropped).selectedFiles =
      s.selectedFiles ++ dropped.filter (fun f => f.type = "application/pdf") := by
    by_cases h : (dropped.filter (fun f => f.type = "application/pdf")).length > 0
    · simp [PDFUpload.handleDrop, h]
    · have hf : dropped.filter (fun f => f.type = "application/pdf") = [] :=
        List.length_eq_zero.mp (by omega)
      simp [PDFUpload.handleDrop, h, hf]
  refine ⟨hdrop, rfl, fun f hf => ?_⟩
  rw [hdrop] at hf
  rcases List.mem_append.mp hf with h | h
  · exact Or.inl h
  · exact Or.inr (by simpa using (List.mem_filter.mp h).2)

/-- Witness for C9: dropping a PDF and a text file adds only the PDF,
and every selected file is an old one or a PDF. -/
theorem drop_filters_dialog_does_not_witness :
    (PDFUpload.handleDrop ⟨[], ""⟩
        [⟨"a.pdf", "application/pdf"⟩, ⟨"b.txt", "text/plain"⟩]).selectedFiles =
      [⟨"a.pdf", "application/pdf"⟩] ∧
    (PDFUpload.handleFileChange ⟨[], ""⟩
        [⟨"b.txt", "text/plain"⟩]).selectedFiles = [⟨"b.txt", "text/plain"⟩] := by
  have h := drop_filters_dialog_does_not ⟨[], ""⟩
    [⟨"a.pdf", "application/pdf"⟩, ⟨"b.txt", "text/plain"⟩]
    [⟨"b.txt", "text/plain"⟩]
  exact ⟨by rw [h.1]; rfl, by rw [h.2.1]; rfl⟩

end ClaimC9

section ClaimC10

/-- C10: `PDFUpload.handleUpload` never calls `onUpload` on an empty
selection (and changes nothing), and whenever it does call `onUpload`
the argument is the full selection and afterwards the selection is
cleared: `selectedFiles` empty and the input's value reset to `""`. -/
theorem upload_requires_selection_then_clears (s : PDFUpload.UploadState) :
    (s.selectedFiles = [] → PDFUpload.handleUpload s = (none, s)) ∧
    (s.selectedFiles ≠ [] →
      (PDFUpload.handleUpload s).1 = some s.selectedFiles ∧
      (PDFUpload.handleUpload s).2.selectedFiles = [] ∧
      (PDFUpload.handleUpload s).2.inputValue = "") := by
  unfold PDFUpload.handleUpload
  constructor
  · intro h
    simp [h]
  · intro h
    rw [if_neg (by simpa [List.length_eq_zero] using h)]
    exact ⟨rfl, rfl, rfl⟩

/-- Witness for C10: a one-file selection is uploaded whole and then
cleared. -/
theorem upload_requires_selection_then_clears_witness :
    (PDFUpload.handleUpload ⟨[⟨"a.pdf", "application/pdf"⟩], "a.pdf"⟩).1 =
      some [⟨"a.pdf", "application/pdf"⟩] ∧
    (PDFUpload.handleUpload ⟨[⟨"a.pdf", "application/pdf"⟩], "a.pdf"⟩).2.selectedFiles = [] ∧
    (PDFUpload.handleUpload ⟨[⟨"a.pdf", "application/pdf"⟩], "a.pdf"⟩).2.inputValue = "" :=
  (upload_requires_selection_then_clears ⟨[⟨"a.pdf", "application/pdf"⟩], "a.pdf"⟩).2
    (by simp)

end ClaimC10

section ClaimC7

/-- If a search of a prefix finds nothing, searching the concatenation
searches only the suffix. -/
theorem find?_append_of_none {α : Type} (p : α → Bool) (l1 l2 : List α)
    (h : l1.find? p = none) : (l1 ++ l2).find? p = l2.find? p := by
  induction l1 with
  | nil => rfl
  | cons a t ih =>
    rw [List.find?_eq_none] at h
    have ha : p a = false := by
      have := h a (List.mem_cons_self a t)
      simpa using this
    have ht : t.find? p = none :=
      List.find?_eq_none.mpr (fun x hx => h x (List.mem_cons_of_mem a hx))
    simpa [List.find?_cons, ha] using ih ht

/-- An ingest that hits an active same-hash document is the
short-circuit of spec §4.4 step 1: it reports `duplicate` and mutates no
store. -/
theorem ingest_duplicate_of_found (hash : List Nat → Nat)
    (embed : List String → List (List Int)) (t : Backend.Stores) (f : String)
    (bytes : List Nat) (pages : List (Nat × String)) (ts : Nat)
    (d : Backend.Document)
    (hd : Backend.find_by_hash t.registry (hash bytes) = some d) :
    (Backend.ingest hash embed t f bytes pages ts).1.isDuplicate = true ∧
    (Backend.ingest hash embed t f bytes pages ts).2 = t := by
  simp [Backend.ingest, hd, Backend.IngestResult.isDuplicate]

/-- A successful ingest leaves the registry holding an active document
with the ingested content hash. -/
theorem ingest_success_finds (hash : List Nat → Nat)
    (embed : List String → List (List Int)) (s : Backend.Stores) (f1 : String)
    (bytes : List Nat) (pages : List (Nat × String)) (ts : Nat)
    (h : (Backend.ingest hash embed s f1 bytes pages ts).1.isSuccess = true) :
    ∃ d : Backend.Document,
      Backend.find_by_hash (Backend.ingest hash embed s f1 bytes pages ts).2.registry
        (hash bytes) = some d := by
  have hnone : Backend.find_by_hash s.registry (hash bytes) = none := by
    cases hf : Backend.find_by_hash s.registry (hash bytes) with
    | none => rfl
    | some d =>
      exfalso
      simp [Backend.ingest, hf, Backend.IngestResult.isSuccess] at h
  have hfind : ((s.registry.filter (·.active)).find?
      (fun e => e.doc.content_hash = hash bytes)) = none := by
    unfold Backend.find_by_hash at hnone
    exact Option.map_eq_none'.mp hnone
  refine ⟨⟨s.nextDocId, f1, hash bytes, ts, pages.length,
    (pages.flatMap (fun p => Backend.chunkPage s.nextDocId p.1 p.2)).length⟩, ?_⟩
  simp only [Backend.ingest, hnone]
  unfold Backend.find_by_hash
  rw [List.filter_append, find?_append_of_none _ _ _ hfind]
  simp

/-- C7 (spec-modelled: the backend IngestionPipeline and
DocumentRegistry are not among the repository's source files, so the
definitions follow spec §4.3-§4.5): once an upload of some bytes has
succeeded, uploading byte-identical content again — under any filename,
any extracted pages and any timestamp — yields a `duplicate` result and
leaves every store untouched: no second registry entry, no ingestion. -/
theorem upload_idempotent (hash : List Nat → Nat)
    (embed : List String → List (List Int)) (s : Backend.Stores) (f1 f2 : String)
    (bytes : List Nat) (pages pages2 : List (Nat × String)) (ts ts2 : Nat)
    (h : (Backend.ingest hash embed s f1 bytes pages ts).1.isSuccess = true) :
    (Backend.ingest hash embed (Backend.ingest hash embed s f1 bytes pages ts).2
        f2 bytes pages2 ts2).1.isDuplicate = true ∧
    (Backend.ingest hash embed (Backend.ingest hash embed s f1 bytes pages ts).2
        f2 bytes pages2 ts2).2 =
      (Backend.ingest hash embed s f1 bytes pages ts).2 := by
  obtain ⟨d, hd⟩ := ingest_success_finds hash embed s f1 bytes pages ts h
  exact ingest_duplicate_of_found hash embed _ f2 bytes pages2 ts2 d hd

/-- A concrete stand-in content digest for the witness. -/
def c7Hash : List Nat → Nat := fun bytes => bytes.sum

/-- A concrete stand-in embedding collaborator for the witness. -/
def c7Embed : List String → List (List Int) := fun texts => texts.map (fun _ => [0])

/-- The empty store state for the witness. -/
def c7S : Backend.Stores := ⟨[], [], [], 0⟩

/-- Witness for C7: after a successful upload of bytes `[1, 2, 3]`, the
byte-identical re-upload is reported `duplicate` and the stores are
unchanged. -/
theorem upload_idempotent_witness :
    (Backend.ingest c7Hash c7Embed
        (Backend.ingest c7Hash c7Embed c7S "a.pdf" [1, 2, 3] [] 0).2
        "copy.pdf" [1, 2, 3] [] 1).1.isDuplicate = true ∧
    (Backend.ingest c7Hash c7Embed
        (Backend.ingest c7Hash c7Embed c7S "a.pdf" [1, 2, 3] [] 0).2
        "copy.pdf" [1, 2, 3] [] 1).2 =
      (Backend.ingest c7Hash c7Embed c7S "a.pdf" [1, 2, 3] [] 0).2 :=
  upload_idempotent c7Hash c7Embed c7S "a.pdf" "copy.pdf" [1, 2, 3] [] [] 0 1
    (by decide)

end ClaimC7
